import Mathlib

/-!
Verification of the node usage-reset scheduling engine of a proxy-fleet
management panel.

The embedding models instants as UTC timestamps: a natural number of seconds
since the Unix epoch (1970-01-01T00:00:00Z). Calendar accessors (date, weekday,
year, month, day, day-of-year) are computed from that number exactly as a
civil-calendar library does, so each timestamp determines the same field values
that Python datetime objects expose to the source code.

Sources embedded:
- app/db/crud/node.py: get_nodes_to_reset_usage, reset_node_usage,
  bulk_reset_node_usage
- app/models/node.py: NodeCreate.validate_reset_time_for_strategy
-/

namespace Panel

/-- Seconds elapsed since midnight of the timestamp's UTC day
(Python: now.hour * 3600 + now.minute * 60 + now.second). -/
def secondsOfDay (t : Nat) : Nat := t % 86400

/-- The UTC calendar day of the timestamp, counted from the epoch
(Python: now.date(), with dates compared/subtracted as day counts). -/
def epochDay (t : Nat) : Nat := t / 86400

/-- Python datetime.weekday(): Monday = 0 .. Sunday = 6.
The epoch day 0 (1970-01-01) was a Thursday, weekday 3. -/
def weekday (t : Nat) : Nat := (epochDay t + 3) % 7

/-- Python (now.date() - last.date()).days: signed difference of calendar
days. -/
def daysDiff (now last : Nat) : Int := (epochDay now : Int) - (epochDay last : Int)

/-- Civil calendar date (year, month, day) of a day count since the epoch,
via the standard era/day-of-era decomposition of the Gregorian calendar. -/
def civilFromDays (z : Nat) : Nat × Nat × Nat :=
  let z := z + 719468
  let era := z / 146097
  let doe := z % 146097
  let yoe := (doe - doe / 1460 + doe / 36524 - doe / 146097) / 365
  let y := yoe + era * 400
  let doy := doe - (365 * yoe + yoe / 4 - yoe / 100)
  let mp := (5 * doy + 2) / 153
  let d := doy - (153 * mp + 2) / 5 + 1
  let m := if mp < 10 then mp + 3 else mp - 9
  (if m ≤ 2 then y + 1 else y, m, d)

/-- Python now.year for a UTC timestamp. -/
def yearOf (t : Nat) : Nat := (civilFromDays (epochDay t)).1

/-- Python now.month for a UTC timestamp. -/
def monthOf (t : Nat) : Nat := (civilFromDays (epochDay t)).2.1

/-- Python now.day for a UTC timestamp. -/
def dayOf (t : Nat) : Nat := (civilFromDays (epochDay t)).2.2

/-- Gregorian leap-year rule. -/
def isLeap (y : Nat) : Bool := y % 4 == 0 && (y % 100 != 0 || y % 400 == 0)

/-- Days in the months strictly before month m of a common year. -/
def cumulativeDays (m : Nat) : Nat :=
  [0, 31, 59, 90, 120, 151, 181, 212, 243, 273, 304, 334].getD (m - 1) 0

/-- Python now.timetuple().tm_yday: 1-based ordinal day of the year. -/
def dayOfYear (t : Nat) : Nat :=
  cumulativeDays (monthOf t) + dayOf t +
    (if 2 < monthOf t && isLeap (yearOf t) then 1 else 0)

/-- Node status enumeration (app/db/models NodeStatus). -/
inductive NodeStatus where
  | connecting
  | connected
  | error
  | disabled
  | limited
deriving DecidableEq, Repr

/-- Usage reset strategy enumeration (app/db/models DataLimitResetStrategy). -/
inductive DataLimitResetStrategy where
  | no_reset
  | day
  | week
  | month
  | year
deriving DecidableEq, Repr

/-- Day-strategy branch of get_nodes_to_reset_usage (crud/node.py lines
498-507): due when the current seconds-of-day has reached reset_time and
either the date advanced past the last reset date or the last reset happened
before today's target time. -/
def dayDue (now last rt : Nat) : Bool :=
  decide (secondsOfDay now ≥ rt ∧
    (epochDay now > epochDay last ∨ secondsOfDay last < rt))

/-- Week-strategy branch of get_nodes_to_reset_usage (crud/node.py lines
509-529): week seconds are weekday * 86400 + seconds-of-day; due when at
least 7 calendar days passed, the current week position has reached
reset_time, and the last reset came before the target within its week or
more than 7 days passed. -/
def weekDue (now last rt : Nat) : Bool :=
  let currentWeekSeconds := weekday now * 86400 + secondsOfDay now
  let lastWeekSeconds := weekday last * 86400 + secondsOfDay last
  decide (daysDiff now last ≥ 7 ∧ currentWeekSeconds ≥ rt ∧
    (lastWeekSeconds < rt ∨ daysDiff now last > 7))

/-- Month-strategy target day of month: min(reset_time // 86400, 28)
(crud/node.py line 533). -/
def monthTargetDay (rt : Nat) : Nat := min (rt / 86400) 28

/-- Month-strategy branch of get_nodes_to_reset_usage (crud/node.py lines
531-558). -/
def monthDue (now last rt : Nat) : Bool :=
  let targetDay := monthTargetDay rt
  let targetSeconds := rt % 86400
  decide ((dayOf now > targetDay ∨
      (dayOf now = targetDay ∧ secondsOfDay now ≥ targetSeconds)) ∧
    (yearOf now > yearOf last ∨ monthOf now > monthOf last ∨
      (monthOf now = monthOf last ∧
        (dayOf last < targetDay ∨
          (dayOf last = targetDay ∧ secondsOfDay last < targetSeconds)))))

/-- Year-strategy branch of get_nodes_to_reset_usage (crud/node.py lines
560-578). The last-reset guard compares only the day of year: there is no
seconds tie-break when the last reset fell exactly on the target day. -/
def yearDue (now last rt : Nat) : Bool :=
  let targetDay := rt / 86400
  let targetSeconds := rt % 86400
  decide ((dayOfYear now > targetDay ∨
      (dayOfYear now = targetDay ∧ secondsOfDay now ≥ targetSeconds)) ∧
    (yearOf now > yearOf last ∨
      (yearOf now = yearOf last ∧ dayOfYear last < targetDay)))

/-- The interval lengths of the strategy-to-days case expression
(crud/node.py lines 442-452); no_reset has no interval (SQL NULL). -/
def numDaysToReset : DataLimitResetStrategy → Option Nat
  | .day => some 1
  | .week => some 7
  | .month => some 30
  | .year => some 365
  | .no_reset => none

/-- Modelled from the spec: the SQL DateDiff comparison of the interval-mode
WHERE branch (crud/node.py line 467). DateDiff lives in
app/db/compiles_types.py, which is not part of the reviewed sources; the spec
defines it as the calendar-day difference between the two instants, not a
fractional-hours difference. A NULL interval (no_reset) makes the SQL
comparison NULL, which excludes the row. -/
def intervalDue (s : DataLimitResetStrategy) (now last : Nat) : Bool :=
  match numDaysToReset s with
  | some d => decide (daysDiff now last ≥ (d : Int))
  | none => false

/-- The Python-phase strategy dispatch of get_nodes_to_reset_usage for
reset_time ≥ 0 (crud/node.py lines 496-581); should_reset stays False for a
strategy with no branch. -/
def absoluteDue (s : DataLimitResetStrategy) (now last rt : Nat) : Bool :=
  match s with
  | .day => dayDue now last rt
  | .week => weekDue now last rt
  | .month => monthDue now last rt
  | .year => yearDue now last rt
  | .no_reset => false

/-- A row of node_usage_reset_logs: node id, the counters captured at the
moment of reset, and the row creation instant. -/
structure LogRec where
  nodeId : Nat
  uplink : Nat
  downlink : Nat
  createdAt : Nat
deriving DecidableEq, Repr

/-- A nodes-table row with the columns the reset pipeline reads or writes. -/
structure NodeRec where
  id : Nat
  name : String
  address : String
  port : Nat
  status : NodeStatus
  uplink : Nat
  downlink : Nat
  dataLimit : Nat
  dataLimitResetStrategy : DataLimitResetStrategy
  resetTime : Int
  createdAt : Nat
  message : Option String
  xrayVersion : Option String
  nodeVersion : Option String
deriving DecidableEq, Repr

/-- Resolution of the last reset instant: the maximum created_at over the
node's usage_logs, else the node's created_at (crud/node.py lines 430-439
for the SQL coalesce and lines 490-494 for the Python phase). -/
def lastResetOf (n : NodeRec) (logs : List LogRec) : Nat :=
  if logs.isEmpty then n.createdAt
  else (logs.map (fun l => l.createdAt)).foldl max 0

/-- The statuses admitted by the WHERE clause of get_nodes_to_reset_usage
(crud/node.py line 462). -/
def eligibleStatuses : List NodeStatus :=
  [.connected, .limited, .error, .connecting]

/-- SQL phase of get_nodes_to_reset_usage (crud/node.py lines 458-471):
status filter, strategy filter, and for reset_time = -1 the interval-mode
due test; reset_time ≥ 0 rows all pass this phase. -/
def sqlPhase (now : Nat) (p : NodeRec × List LogRec) : Bool :=
  decide (p.1.status ∈ eligibleStatuses) &&
  decide (p.1.dataLimitResetStrategy ≠ .no_reset) &&
  (if p.1.resetTime = -1 then
    intervalDue p.1.dataLimitResetStrategy now (lastResetOf p.1 p.2)
  else true)

/-- Python phase of get_nodes_to_reset_usage (crud/node.py lines 481-583):
interval-mode rows are kept as already filtered; absolute-mode rows run the
per-strategy due test. -/
def pythonPhase (now : Nat) (p : NodeRec × List LogRec) : Bool :=
  if p.1.resetTime = -1 then true
  else absoluteDue p.1.dataLimitResetStrategy now (lastResetOf p.1 p.2)
    p.1.resetTime.toNat

/-- get_nodes_to_reset_usage (crud/node.py lines 424-583) over a database
snapshot: each node is paired with its usage-reset-log rows. -/
def getNodesToResetUsage (now : Nat) (db : List (NodeRec × List LogRec)) :
    List NodeRec :=
  ((db.filter (sqlPhase now)).filter (pythonPhase now)).map (fun p => p.1)

/-- The audit row appended by a reset: node id and the node's current
counters (crud/node.py lines 598-602 and 631-635); created_at is the commit
instant. -/
def resetLogFor (now : Nat) (n : NodeRec) : LogRec :=
  { nodeId := n.id, uplink := n.uplink, downlink := n.downlink, createdAt := now }

/-- The per-node mutation of a reset (crud/node.py lines 606-610 and
638-644): zero both counters, and move a limited node to connecting. -/
def resetStagedNode (n : NodeRec) : NodeRec :=
  let n := { n with uplink := 0, downlink := 0 }
  if n.status = .limited then { n with status := .connecting } else n

/-- reset_node_usage (crud/node.py lines 586-615) acting on one node and the
log table: append one audit row with the pre-reset counters, zero the
counters, clear a limited status, return the refreshed node. -/
def resetNodeUsage (now : Nat) (n : NodeRec) (logs : List LogRec) :
    NodeRec × List LogRec :=
  let usageLog := resetLogFor now n
  (resetStagedNode n, logs ++ [usageLog])

/-- Persisted database state: the nodes table and the usage-reset-log
table. -/
structure DBState where
  nodes : List NodeRec
  logs : List LogRec
deriving DecidableEq, Repr

/-- The ORM session: rows added and node rows mutated since the last commit,
visible only to the session until a commit persists them. -/
structure Session where
  newLogs : List LogRec
  dirtyNodes : List NodeRec
deriving DecidableEq, Repr

/-- The operations bulk_reset_node_usage issues against the session: stage
an audit-row insert, stage a node update, or commit the unit of work. -/
inductive SessionOp where
  | addLog (l : LogRec)
  | setNode (n : NodeRec)
  | commit
deriving DecidableEq, Repr

/-- The operation trace of bulk_reset_node_usage (crud/node.py lines
618-650): the loop stages one audit row and one node mutation per node, and
a single commit follows the loop. -/
def bulkResetOps (now : Nat) (nodes : List NodeRec) : List SessionOp :=
  (nodes.flatMap (fun n =>
    [SessionOp.addLog (resetLogFor now n), SessionOp.setNode (resetStagedNode n)]))
  ++ [SessionOp.commit]

/-- Applying a session to the persisted state: staged node updates replace
the rows with matching ids and staged log rows are appended. -/
def applySession (db : DBState) (s : Session) : DBState :=
  { nodes := db.nodes.map (fun n =>
      match s.dirtyNodes.find? (fun m => m.id == n.id) with
      | some m => m
      | none => n),
    logs := db.logs ++ s.newLogs }

/-- The session with nothing staged. -/
def emptySession : Session := { newLogs := [], dirtyNodes := [] }

/-- One step of the store semantics, modelled from the spec's store
contract: staging operations touch only the session; a commit applies the
whole session to the persisted state atomically when it succeeds
(commitOk = true) and leaves the persisted state untouched when it fails. -/
def execOp (commitOk : Bool) (st : DBState × Session) (op : SessionOp) :
    DBState × Session :=
  match op with
  | .addLog l => (st.1, { st.2 with newLogs := st.2.newLogs ++ [l] })
  | .setNode n => (st.1, { st.2 with dirtyNodes := st.2.dirtyNodes ++ [n] })
  | .commit => if commitOk then (applySession st.1 st.2, emptySession) else st

/-- Run a trace of session operations from a starting state. -/
def execOps (commitOk : Bool) (st : DBState × Session) (ops : List SessionOp) :
    DBState × Session :=
  ops.foldl (execOp commitOk) st

/-- bulk_reset_node_usage as a run of its operation trace against the store,
starting from a clean session. -/
def runBulkResetNodeUsage (commitOk : Bool) (now : Nat) (db : DBState)
    (nodes : List NodeRec) : DBState × Session :=
  execOps commitOk (db, emptySession) (bulkResetOps now nodes)

/-- The per-strategy maximum reset_time encodings of
NodeCreate.validate_reset_time_for_strategy (app/models/node.py lines 15-18
and 134-140); the dict has no entry for no_reset. -/
def maxResetTimeValue : DataLimitResetStrategy → Option Int
  | .day => some 86400
  | .week => some 604800
  | .month => some 2678400
  | .year => some 31536000
  | .no_reset => none

/-- NodeCreate.validate_reset_time_for_strategy (app/models/node.py lines
125-149): true when the model is accepted, false when a ValueError is
raised. Validation is skipped for the no_reset strategy and for
reset_time = -1; otherwise it fails exactly when reset_time reaches the
strategy's maximum encoding. -/
def validateResetTimeForStrategy (s : DataLimitResetStrategy) (rt : Int) :
    Bool :=
  if s = .no_reset ∨ rt = -1 then true
  else
    match maxResetTimeValue s with
    | some m => if rt ≥ m then false else true
    | none => true

/-- The year-strategy due rule as the specification words it: the month rule
with day-of-year substituted for day-of-month and no 28-day cap, including
the seconds tie-break when the last reset fell exactly on the target day. -/
def yearDueClaim (now last rt : Nat) : Bool :=
  let targetDay := rt / 86400
  let targetSeconds := rt % 86400
  decide ((dayOfYear now > targetDay ∨
      (dayOfYear now = targetDay ∧ secondsOfDay now ≥ targetSeconds)) ∧
    (yearOf now > yearOf last ∨
      (yearOf now = yearOf last ∧
        (dayOfYear last < targetDay ∨
          (dayOfYear last = targetDay ∧ secondsOfDay last < targetSeconds)))))

/-- A concrete connected node with an interval day strategy, used to
exercise the candidate selector on a one-node database. -/
def node0 : NodeRec :=
  { id := 1, name := "n", address := "a", port := 62050,
    status := .connected, uplink := 5, downlink := 6, dataLimit := 0,
    dataLimitResetStrategy := .day, resetTime := -1, createdAt := 0,
    message := none, xrayVersion := none, nodeVersion := none }

/-- Staging operations never change the persisted state, and a failed
commit leaves it untouched as well. -/
theorem execOp_fail_fst (st : DBState × Session) (op : SessionOp) :
    (execOp false st op).1 = st.1 := by
  cases op <;> rfl

/-- Running any operation trace with a failing commit leaves the persisted
state exactly as it was. -/
theorem execOps_fail_fst (ops : List SessionOp) (st : DBState × Session) :
    (execOps false st ops).1 = st.1 := by
  induction ops generalizing st with
  | nil => rfl
  | cons op ops ih =>
      have h : execOps false st (op :: ops) = execOps false (execOp false st op) ops := rfl
      rw [h, ih, execOp_fail_fst]

/-- The loop body of bulk_reset_node_usage stages inserts and updates only:
its trace contains no commit. -/
theorem bulkResetOps_loop_no_commit (now : Nat) (nodes : List NodeRec) :
    (nodes.flatMap (fun n =>
      [SessionOp.addLog (resetLogFor now n),
       SessionOp.setNode (resetStagedNode n)])).count SessionOp.commit = 0 := by
  induction nodes with
  | nil => rfl
  | cons n ns ih => simp [List.flatMap_cons, List.count_append, ih]

/-- C1: reset_node_usage appends exactly one audit log row recording the
node's pre-reset uplink and downlink, zeroes the node's uplink and downlink,
and turns a limited status into connecting while leaving any other status
alone; the returned node carries these changes. -/
theorem reset_node_usage_effect (now : Nat) (n : NodeRec) (logs : List LogRec) :
    (resetNodeUsage now n logs).2 =
      logs ++ [{ nodeId := n.id, uplink := n.uplink, downlink := n.downlink,
                 createdAt := now }] ∧
    (resetNodeUsage now n logs).1.uplink = 0 ∧
    (resetNodeUsage now n logs).1.downlink = 0 ∧
    (resetNodeUsage now n logs).1.status =
      (if n.status = NodeStatus.limited then NodeStatus.connecting
       else n.status) := by
  refine ⟨rfl, ?_, ?_, ?_⟩ <;>
    by_cases h : n.status = NodeStatus.limited <;>
    simp [resetNodeUsage, resetStagedNode, resetLogFor, h]

/-- C2: bulk_reset_node_usage stages one audit row and one node update per
node and issues exactly one commit; when that commit fails, the persisted
state is exactly the pre-call state: no counter is zeroed, no status is
changed, and no audit row is persisted. -/
theorem bulk_reset_node_usage_atomic (now : Nat) (db : DBState)
    (nodes : List NodeRec) :
    (bulkResetOps now nodes).count SessionOp.commit = 1 ∧
    (runBulkResetNodeUsage false now db nodes).1 = db := by
  constructor
  · simp [bulkResetOps, List.count_append, bulkResetOps_loop_no_commit]
  · exact execOps_fail_fst _ _

/-- C10: the reset executor entry points rewrite a node to a copy that
differs only in uplink, downlink and status; status becomes connecting when
it was limited and is otherwise unchanged, and every other field (id, name,
address, port, data limit, strategy, reset time, creation time, message and
version fields) is untouched, in both the single and the bulk per-node
effect. -/
theorem reset_node_usage_frame (now : Nat) (n : NodeRec) (logs : List LogRec) :
    (resetNodeUsage now n logs).1 =
      { n with
        uplink := 0
        downlink := 0
        status := if n.status = NodeStatus.limited then NodeStatus.connecting
                  else n.status } ∧
    resetStagedNode n =
      { n with
        uplink := 0
        downlink := 0
        status := if n.status = NodeStatus.limited then NodeStatus.connecting
                  else n.status } := by
  constructor <;>
    by_cases h : n.status = NodeStatus.limited <;>
    simp [resetNodeUsage, resetStagedNode, resetLogFor, h]

/-- C9: the NodeCreate reset-time validator rejects exactly the
combinations where the strategy is one of day, week, month, year, the
reset_time is not the interval sentinel -1, and the reset_time reaches the
strategy's maximum encoding (86400, 604800, 2678400, 31536000
respectively); every other combination is accepted. -/
theorem validate_reset_time_for_strategy_iff (s : DataLimitResetStrategy)
    (rt : Int) :
    validateResetTimeForStrategy s rt = false ↔
      (rt ≠ -1 ∧
        ((s = DataLimitResetStrategy.day ∧ rt ≥ 86400) ∨
         (s = DataLimitResetStrategy.week ∧ rt ≥ 604800) ∨
         (s = DataLimitResetStrategy.month ∧ rt ≥ 2678400) ∨
         (s = DataLimitResetStrategy.year ∧ rt ≥ 31536000))) := by
  cases s <;> simp [validateResetTimeForStrategy, maxResetTimeValue]

/-- C6: in absolute mode the day strategy is due exactly when the current
seconds-of-day has reached reset_time and either the calendar date moved
past the last reset date or the last reset happened earlier in the day than
the target; with reset_time 0 it is due exactly when now has crossed a
midnight after the last reset. -/
theorem day_due_iff (now last rt : Nat) :
    (dayDue now last rt = true ↔
      (rt ≤ secondsOfDay now ∧
        (epochDay last < epochDay now ∨ secondsOfDay last < rt))) ∧
    (dayDue now last 0 = true ↔ epochDay last < epochDay now) := by
  constructor <;> simp [dayDue]

/-- C7: in absolute mode the week strategy is due exactly when at least 7
calendar days have elapsed, the current week position (weekday times 86400
plus seconds-of-day) has reached reset_time, and either the last reset's
week position was before the target or more than 7 days have elapsed; in
particular it is never due before 7 calendar days have elapsed. -/
theorem week_due_iff (now last rt : Nat) :
    (weekDue now last rt = true ↔
      (7 ≤ daysDiff now last ∧
        rt ≤ weekday now * 86400 + secondsOfDay now ∧
        (weekday last * 86400 + secondsOfDay last < rt ∨
          7 < daysDiff now last))) ∧
    (daysDiff now last < 7 → weekDue now last rt = false) := by
  constructor
  · simp [weekDue]
  · intro h
    simp only [weekDue, decide_eq_false_iff_not]
    intro hc
    omega

/-- C7 witness: at two equal instants no calendar day has elapsed and the
week strategy is not due. -/
theorem week_due_iff_witness : weekDue 0 0 0 = false :=
  (week_due_iff 0 0 0).2 (by decide)

/-- C5: the month strategy's effective target day-of-month is
min(reset_time / 86400, 28), hence never greater than 28, and the due
decision for a reset_time encoding any day at least 28 coincides with the
decision for the same time-of-day on day 28. -/
theorem month_target_day_capped (now last rt d s : Nat) (hs : s < 86400)
    (hd : 28 ≤ d) :
    monthTargetDay rt = min (rt / 86400) 28 ∧ monthTargetDay rt ≤ 28 ∧
    monthDue now last (86400 * d + s) = monthDue now last (86400 * 28 + s) := by
  refine ⟨rfl, Nat.min_le_right _ _, ?_⟩
  have h1 : monthTargetDay (86400 * d + s) = 28 := by
    unfold monthTargetDay; omega
  have h2 : monthTargetDay (86400 * 28 + s) = 28 := by
    unfold monthTargetDay; omega
  have h3 : (86400 * d + s) % 86400 = s := by omega
  have h4 : (86400 * 28 + s) % 86400 = s := by omega
  simp [monthDue, h1, h2, h3, h4]

/-- C5 witness: a reset_time encoding day 31 at 01:00 decides like day 28
at 01:00, and the target day stays capped at 28. -/
theorem month_target_day_capped_witness :
    monthTargetDay 0 = min (0 / 86400) 28 ∧ monthTargetDay 0 ≤ 28 ∧
    monthDue 0 0 (86400 * 31 + 3600) = monthDue 0 0 (86400 * 28 + 3600) :=
  month_target_day_capped 0 0 0 31 3600 (by decide) (by decide)

/-- C8: every node selected by get_nodes_to_reset_usage has one of the four
eligible statuses (connected, limited, error, connecting) - so never
disabled - and a strategy other than no_reset. -/
theorem nodes_to_reset_filtered (now : Nat)
    (db : List (NodeRec × List LogRec)) (n : NodeRec)
    (h : n ∈ getNodesToResetUsage now db) :
    n.status ∈ eligibleStatuses ∧ n.status ≠ NodeStatus.disabled ∧
      n.dataLimitResetStrategy ≠ DataLimitResetStrategy.no_reset := by
  rcases List.mem_map.1 h with ⟨p, hp, rfl⟩
  rcases List.mem_filter.1 hp with ⟨hp1, _⟩
  rcases List.mem_filter.1 hp1 with ⟨_, hsql⟩
  simp only [sqlPhase, Bool.and_eq_true, decide_eq_true_eq] at hsql
  refine ⟨hsql.1.1, ?_, hsql.1.2⟩
  intro hd
  rw [hd] at hsql
  simp [eligibleStatuses] at hsql

/-- C8 witness: a connected interval-mode day-strategy node created at the
epoch is selected two days later, and indeed carries an eligible status and
a real strategy. -/
theorem nodes_to_reset_filtered_witness :
    node0.status ∈ eligibleStatuses ∧ node0.status ≠ NodeStatus.disabled ∧
      node0.dataLimitResetStrategy ≠ DataLimitResetStrategy.no_reset :=
  nodes_to_reset_filtered 172800 [(node0, [])] node0 (by decide)

/-- C3 counterexample: interval due-ness is a calendar-day comparison, not
an elapsed-duration comparison, so a day-strategy reset only 23 hours old
is already due once a midnight lies between the two instants: at
now = 172800 (1970-01-03T00:00:00Z) with last = 90000
(1970-01-02T01:00:00Z), exactly 23 hours have elapsed yet the node is due,
refuting that a last reset 23 hours before now is never due. -/
theorem interval_due_counterexample :
    ¬ (∀ now last : Nat, now = last + 23 * 3600 →
        intervalDue DataLimitResetStrategy.day now last = false) := by
  intro h
  exact absurd (h 172800 90000 (by norm_num)) (by decide)

/-- C3 amended: interval-mode due-ness compares the calendar-day difference
with the strategy interval of 1, 7, 30 or 365 days; consequently a
day-strategy reset 25 or more hours old is always due (a midnight is
certainly crossed), and a week-strategy reset exactly 7 times 86400 seconds
old is due, but a reset 23 hours old may already be due when a midnight
falls in between. -/
theorem interval_due_amended (s : DataLimitResetStrategy) (now last : Nat) :
    (intervalDue s now last = true ↔
      ∃ d, numDaysToReset s = some d ∧ (d : Int) ≤ daysDiff now last) ∧
    (last + 25 * 3600 ≤ now →
      intervalDue DataLimitResetStrategy.day now last = true) ∧
    (now = last + 7 * 86400 →
      intervalDue DataLimitResetStrategy.week now last = true) := by
  refine ⟨?_, ?_, ?_⟩
  · cases s <;> simp [intervalDue, numDaysToReset]
  · intro h
    simp only [intervalDue, numDaysToReset, daysDiff, epochDay,
      decide_eq_true_eq]
    omega
  · intro h
    subst h
    simp only [intervalDue, numDaysToReset, daysDiff, epochDay,
      decide_eq_true_eq]
    omega

/-- C3 witness: a day-strategy reset exactly 25 hours old is due. -/
theorem interval_due_amended_witness :
    intervalDue DataLimitResetStrategy.day 176400 86400 = true :=
  (interval_due_amended DataLimitResetStrategy.day 176400 86400).2.1
    (by norm_num)

/-- C4 counterexample: with reset_time = 867600 (day-of-year 10, seconds
3600), last reset at 779400 (1970-01-10T00:30:00Z, day-of-year 10, before
the target seconds) and now = 781200 (1970-01-10T01:00:00Z, exactly at the
target), the claimed month-analogous rule with a seconds tie-break says the
node is due, but the code's year branch compares only the day of year of
the last reset and says it is not. -/
theorem year_due_counterexample :
    yearDueClaim 781200 779400 867600 = true ∧
    yearDue 781200 779400 867600 = false := by
  constructor <;> decide

/-- C4 amended: the year strategy in absolute mode is due exactly when the
current day-of-year and seconds have reached the target encoded in
reset_time and the last reset lies in an earlier year or strictly earlier
in this year's day-of-year count than the target day; unlike the month
rule there is no seconds tie-break, so a last reset on the target day
itself blocks re-firing for the rest of that year even when it happened
before the target time-of-day. -/
theorem year_due_amended (now last rt : Nat) :
    (yearDue now last rt = true ↔
      ((rt / 86400 < dayOfYear now ∨
          (dayOfYear now = rt / 86400 ∧ rt % 86400 ≤ secondsOfDay now)) ∧
        (yearOf last < yearOf now ∨
          (yearOf now = yearOf last ∧ dayOfYear last < rt / 86400)))) ∧
    (yearOf now = yearOf last → rt / 86400 ≤ dayOfYear last →
      yearDue now last rt = false) := by
  constructor
  · simp [yearDue]
  · intro h1 h2
    simp only [yearDue, decide_eq_false_iff_not]
    intro hc
    omega

/-- C4 witness: with the last reset already on the target day of the same
year, the code's rule is not due even though the time-of-day target had
not yet been reached at the last reset. -/
theorem year_due_amended_witness : yearDue 781200 779400 867600 = false :=
  (year_due_amended 781200 779400 867600).2 (by decide) (by decide)

end Panel
